import Mathlib

/-!
Shallow embedding of the Voice_Assistant turn-taking controller
(`VoiceAssistant` component together with the `useSpeechRecognition` /
`useSpeechSynthesis` hooks and the backend client), modelled as a
single-threaded event reducer: each delivered adapter/timer/user event runs
the corresponding handler and then the component's effects
(final-transcript effect and status effect), exactly as the React event
loop does after a state change.
-/

namespace VoiceAssistant

/-- The `status` state of the component: one of the string literals
`idle`, `listening`, `processing`, `speaking`, `error` used in the source. -/
inductive Status where
  | idle
  | listening
  | processing
  | speaking
  | error
deriving DecidableEq, Repr

/-- Which completion callback is registered with the speech-synthesis
utterance currently being voiced: the greeting callback of `handleStart`
(which only restarts listening) or the turn callback installed by
`handleUserMessage` (which clears the flag and schedules the resume). -/
inductive OnEnd where
  | greet
  | turn
deriving DecidableEq, Repr

/-- The pending one-shot `setTimeout` callbacks of the component, named by
their delays in the source: 300 (interrupt resume), 500 (cancel resume),
800 (after-speech resume), 2000 (error resume), and the 200-unit settle
delay before speaking a backend reply (which carries the reply text). -/
inductive TimerKind where
  | int300
  | cancel500
  | resume800
  | err2000
  | settle (r : String)
deriving DecidableEq, Repr

/-- Events delivered to the controller by the adapters, the timers, the
backend client and the user. -/
inductive Event where
  | start
  | interim (t : String)
  | final (t : String)
  | fireSilence
  | fireTimer (k : TimerKind)
  | backendOk (r : String)
  | backendErr
  | speakEnd
  | interrupt
  | cancel
deriving DecidableEq, Repr

/-- JavaScript `text.split(' ')`: the list of (possibly empty) segments of
the character list between single space characters. -/
def jsSplit : List Char → List (List Char)
  | [] => [[]]
  | c :: rest =>
    match jsSplit rest with
    | [] => [[]]
    | w :: ws => if c = ' ' then [] :: w :: ws else (c :: w) :: ws

/-- `interimTranscript.split(' ').length` from the silence-detection
effect. -/
def wordCount (t : String) : Nat := (jsSplit t.toList).length

/-- `text.trim().length > 0`: the text contains a non-whitespace
character. -/
def nonBlank (t : String) : Bool := t.toList.any (fun c => !c.isWhitespace)

/-- The adaptive silence delay:
`interimTranscript.split(' ').length > 5 ? 1200 : 1500`. -/
def silenceDelay (t : String) : Nat := if 5 < wordCount t then 1200 else 1500

/-- The state of the controller: the component state (`status`,
`currentTranscript`, `lastResponse`, `hasStarted`, `needsPermission`), the
refs (`processingRef`, `lastTranscriptRef`, `silenceTimerRef`), the
recognition hook's `isListening`/`transcript` pair, the synthesis hook's
`isSpeaking` with the registered completion callback, the queued
`setTimeout` callbacks, the number of outstanding backend calls and the
list of utterances sent to the backend (most recent first). -/
structure St where
  needsPermission : Bool
  hasStarted : Bool
  status : Status
  processing : Bool
  inputActive : Bool
  outputActive : Bool
  pendingOnEnd : Option OnEnd
  currentTranscript : String
  lastResponse : String
  lastTranscript : String
  pendingFinal : String
  silenceTimer : Option Nat
  timers : List TimerKind
  inFlight : Nat
  log : List String
  synthSupported : Bool
deriving DecidableEq, Repr

/-- Initial state of the app, parametrised by whether the speech-synthesis
API is supported in the environment. -/
def init (b : Bool) : St :=
  { needsPermission := true
    hasStarted := false
    status := Status.idle
    processing := false
    inputActive := false
    outputActive := false
    pendingOnEnd := none
    currentTranscript := ""
    lastResponse := ""
    lastTranscript := ""
    pendingFinal := ""
    silenceTimer := none
    timers := []
    inFlight := 0
    log := []
    synthSupported := b }

/-- `startListening` of `useSpeechRecognition`: clears the transcript and
starts recognition. -/
def startListening (s : St) : St := { s with inputActive := true, pendingFinal := "" }

/-- `stopListening` of `useSpeechRecognition`. -/
def stopListening (s : St) : St := { s with inputActive := false }

/-- `speak(text, onEnd)` of `useSpeechSynthesis`: when synthesis is
unsupported it returns without doing anything (the callback is never
registered); otherwise it cancels any ongoing utterance and voices the new
one, registering its completion callback. -/
def speak (s : St) (_text : String) (k : OnEnd) : St :=
  if s.synthSupported then { s with outputActive := true, pendingOnEnd := some k } else s

/-- `stop` of `useSpeechSynthesis`: cancels synthesis; the cancelled
utterance's completion callback is discarded. -/
def stopSpeaking (s : St) : St := { s with outputActive := false, pendingOnEnd := none }

/-- The synchronous prefix of `handleUserMessage(message)`: guard, set the
processing flag, stop listening, show `processing`, record the transcript
and issue the backend call. -/
def handleUserMessage (s : St) (message : String) : St :=
  if !nonBlank message || s.processing then s
  else
    { s with
      processing := true
      inputActive := false
      status := Status.processing
      currentTranscript := message
      inFlight := s.inFlight + 1
      log := message :: s.log }

/-- The guard of the final-transcript effect together with its inner
duplicate check: `transcript && !isListening && hasStarted &&
!processingRef.current` and `transcript !== lastTranscriptRef.current &&
transcript.trim().length > 0`. -/
def dispatchReady (s : St) : Bool :=
  s.pendingFinal != "" && !s.inputActive && s.hasStarted && !s.processing &&
    s.pendingFinal != s.lastTranscript && nonBlank s.pendingFinal

/-- The final-transcript effect: when the guard passes it records the
utterance in `lastTranscriptRef`, runs `handleUserMessage` and resets the
hook transcript. -/
def finalTranscriptEffect (s : St) : St :=
  if dispatchReady s then
    { handleUserMessage { s with lastTranscript := s.pendingFinal } s.pendingFinal with
        pendingFinal := "" }
  else s

/-- The status effect: skipped while `processingRef` is set; otherwise it
mirrors the adapters into `status` and stops listening while speaking. -/
def statusEffect (s : St) : St :=
  if s.processing then s
  else if s.outputActive then { s with status := Status.speaking, inputActive := false }
  else if s.inputActive then { s with status := Status.listening }
  else s

/-- The effects run after a handler changed state, re-run once more to a
fixpoint because the status effect's `stopListening` re-triggers the
final-transcript effect. -/
def react (s : St) : St :=
  statusEffect (finalTranscriptEffect (statusEffect (finalTranscriptEffect s)))

/-- `handleStart`: drop the permission screen, show `listening`, mark the
session started and speak the greeting with the greeting callback. -/
def handleStart (s : St) : St :=
  speak { s with needsPermission := false, status := Status.listening, hasStarted := true }
    "Hello! How can I help you?" OnEnd.greet

/-- `handleInterrupt`: only when `isSpeaking`; stops synthesis, clears the
flag and both texts, shows `listening` and schedules `startListening`
after 300 time-units. -/
def handleInterrupt (s : St) : St :=
  if s.outputActive then
    { stopSpeaking s with
        processing := false
        status := Status.listening
        currentTranscript := ""
        lastResponse := ""
        timers := TimerKind.int300 :: s.timers }
  else s

/-- `handleCancel`: stops both adapters, clears the flag and all text,
shows `idle` and schedules the 500 time-unit resume. -/
def handleCancel (s : St) : St :=
  { s with
      inputActive := false
      outputActive := false
      pendingOnEnd := none
      processing := false
      status := Status.idle
      currentTranscript := ""
      lastResponse := ""
      timers := TimerKind.cancel500 :: s.timers }

/-- Remove the first occurrence of a fired timer from the queue. -/
def removeFirst (k : TimerKind) : List TimerKind → List TimerKind
  | [] => []
  | x :: xs => if x = k then xs else x :: removeFirst k xs

/-- The body of each queued `setTimeout` callback. -/
def applyTimer (s : St) : TimerKind → St
  | TimerKind.int300 => startListening s
  | TimerKind.cancel500 => startListening { s with status := Status.listening }
  | TimerKind.resume800 =>
    if s.outputActive then s else startListening { s with status := Status.listening }
  | TimerKind.err2000 =>
    startListening { s with status := Status.listening, currentTranscript := "" }
  | TimerKind.settle r => speak { s with status := Status.speaking } r OnEnd.turn

/-- One step of the event loop: run the handler for the delivered event and
then the component's effects. Events whose guard fails change nothing (no
render, so no effects run). -/
def step (s : St) : Event → St
  | Event.start => if s.needsPermission then react (handleStart s) else s
  | Event.interim t =>
    if t != "" && s.inputActive && !s.processing then
      react { s with currentTranscript := t, silenceTimer := some (silenceDelay t) }
    else s
  | Event.final t => react { s with pendingFinal := t }
  | Event.fireSilence =>
    match s.silenceTimer with
    | none => s
    | some _ =>
      if s.inputActive && !s.processing then
        react { s with silenceTimer := none, inputActive := false }
      else react { s with silenceTimer := none }
  | Event.fireTimer k =>
    if s.timers.contains k then react (applyTimer { s with timers := removeFirst k s.timers } k)
    else s
  | Event.backendOk r =>
    if s.inFlight = 0 then s
    else
      react
        { s with
            inFlight := s.inFlight - 1
            lastResponse := r
            timers := TimerKind.settle r :: s.timers }
  | Event.backendErr =>
    if s.inFlight = 0 then s
    else
      react
        { s with
            inFlight := s.inFlight - 1
            processing := false
            status := Status.error
            currentTranscript := "Sorry, something went wrong"
            timers := TimerKind.err2000 :: s.timers }
  | Event.speakEnd =>
    if s.outputActive then
      match s.pendingOnEnd with
      | some OnEnd.greet =>
        react (startListening { s with outputActive := false, pendingOnEnd := none })
      | some OnEnd.turn =>
        react
          { s with
              outputActive := false
              pendingOnEnd := none
              processing := false
              status := Status.idle
              currentTranscript := ""
              lastResponse := ""
              timers := TimerKind.resume800 :: s.timers }
      | none => react { s with outputActive := false }
    else s
  | Event.interrupt => if s.outputActive then react (handleInterrupt s) else s
  | Event.cancel =>
    if s.needsPermission || s.outputActive then s else react (handleCancel s)

/-- Run the controller from the initial state over a list of delivered
events. -/
def run (b : Bool) (tr : List Event) : St := tr.foldl step (init b)

/-- A session in which the user starts the assistant, the greeting
finishes, the user cancels twice in quick succession, the first cancel
resume fires, the user speaks an utterance which is dispatched at the
silence pause, then the second (stale) cancel resume fires, the backend
replies and the settle delay elapses. -/
def mutexBugTrace : List Event :=
  [Event.start, Event.speakEnd, Event.cancel, Event.cancel,
    Event.fireTimer TimerKind.cancel500, Event.interim "hello there",
    Event.final "hello there", Event.fireSilence, Event.fireTimer TimerKind.cancel500,
    Event.backendOk "hi", Event.fireTimer (TimerKind.settle "hi")]

/-- A state in which the greeting has completed and the controller is
Listening with the recognition adapter active. -/
def listeningState : St := run true [Event.start, Event.speakEnd]

/-- A state with one dispatched turn in flight: greeting done, the user
said "hi", the silence pause fired and the utterance was sent to the
backend. -/
def processingState : St :=
  run true [Event.start, Event.speakEnd, Event.interim "hi", Event.final "hi",
    Event.fireSilence]

/-- A session in which a turn is dispatched, the user cancels while it is
in flight, the cancel resume restarts listening, a new final transcript is
buffered, and the cancelled turn's reply then arrives and is spoken: the
speaking of the reply stops recognition, which releases the buffered final
and starts a second turn while the reply is still being voiced. -/
def interruptCexTrace : List Event :=
  [Event.start, Event.speakEnd, Event.interim "a", Event.final "a",
    Event.fireSilence, Event.cancel, Event.fireTimer TimerKind.cancel500,
    Event.final "b", Event.backendOk "r", Event.fireTimer (TimerKind.settle "r")]

/-- A state in which a final transcript has been delivered but is still
buffered because recognition is active. -/
def pendingFinalState : St :=
  run true [Event.start, Event.speakEnd, Event.interim "hi", Event.final "hi"]

/-- The head of the dispatch list (when there is one) is exactly the
remembered `lastTranscriptRef` value. -/
def HeadOk (s : St) : Prop := s.log = [] ∨ s.log.head? = some s.lastTranscript

/-- Invariant carried through every event: adjacent dispatched utterances
differ, and the most recent one is the remembered duplicate-guard value. -/
def GoodLog (s : St) : Prop := List.Chain' (· ≠ ·) s.log ∧ HeadOk s

lemma nonBlank_ne_empty {t : String} (h : nonBlank t = true) : t ≠ "" := by
  intro he
  subst he
  simp [nonBlank] at h

lemma statusEffect_proc {s : St} (h : s.processing = true) : statusEffect s = s := by
  simp [statusEffect, h]

lemma dispatchReady_proc {s : St} (h : s.processing = true) : dispatchReady s = false := by
  simp [dispatchReady, h]

lemma fe_proc {s : St} (h : s.processing = true) : finalTranscriptEffect s = s := by
  simp [finalTranscriptEffect, dispatchReady_proc h]

lemma react_proc {s : St} (h : s.processing = true) : react s = s := by
  simp [react, fe_proc h, statusEffect_proc h]

lemma speak_processing (s : St) (t : String) (k : OnEnd) :
    (speak s t k).processing = s.processing := by
  unfold speak
  split <;> rfl

lemma applyTimer_processing (s : St) (k : TimerKind) :
    (applyTimer s k).processing = s.processing := by
  cases k <;> simp [applyTimer, startListening, speak] <;> split <;> rfl

lemma speak_logLast (s : St) (t : String) (k : OnEnd) :
    (speak s t k).log = s.log ∧ (speak s t k).lastTranscript = s.lastTranscript := by
  unfold speak
  split <;> exact ⟨rfl, rfl⟩

lemma applyTimer_logLast (s : St) (k : TimerKind) :
    (applyTimer s k).log = s.log ∧ (applyTimer s k).lastTranscript = s.lastTranscript := by
  cases k <;> simp [applyTimer, startListening, speak] <;> split <;> exact ⟨rfl, rfl⟩

lemma statusEffect_logLast (s : St) :
    (statusEffect s).log = s.log ∧ (statusEffect s).lastTranscript = s.lastTranscript := by
  unfold statusEffect
  split
  · exact ⟨rfl, rfl⟩
  · split
    · exact ⟨rfl, rfl⟩
    · split <;> exact ⟨rfl, rfl⟩

lemma statusEffect_silenceTimer (s : St) : (statusEffect s).silenceTimer = s.silenceTimer := by
  unfold statusEffect
  split
  · rfl
  · split
    · rfl
    · split <;> rfl

lemma fe_silenceTimer (s : St) :
    (finalTranscriptEffect s).silenceTimer = s.silenceTimer := by
  unfold finalTranscriptEffect handleUserMessage
  split
  · split <;> rfl
  · rfl

lemma react_silenceTimer (s : St) : (react s).silenceTimer = s.silenceTimer := by
  simp [react, fe_silenceTimer, statusEffect_silenceTimer]

lemma goodLog_congr {s s' : St} (hl : s'.log = s.log)
    (ht : s'.lastTranscript = s.lastTranscript) (h : GoodLog s) : GoodLog s' := by
  unfold GoodLog HeadOk at h ⊢
  rw [hl, ht]
  exact h

lemma dispatchReady_parts {s : St} (h : dispatchReady s = true) :
    s.pendingFinal ≠ "" ∧ s.inputActive = false ∧ s.hasStarted = true ∧
      s.processing = false ∧ s.pendingFinal ≠ s.lastTranscript ∧
      nonBlank s.pendingFinal = true := by
  simp only [dispatchReady, Bool.and_eq_true, bne_iff_ne, ne_eq, Bool.not_eq_true',
    Bool.not_eq_true] at h
  obtain ⟨⟨⟨⟨⟨h1, h2⟩, h3⟩, h4⟩, h5⟩, h6⟩ := h
  exact ⟨h1, h2, h3, h4, h5, h6⟩

lemma fe_of_ready {s : St} (h : dispatchReady s = true) :
    finalTranscriptEffect s =
      { s with
          lastTranscript := s.pendingFinal
          processing := true
          inputActive := false
          status := Status.processing
          currentTranscript := s.pendingFinal
          inFlight := s.inFlight + 1
          log := s.pendingFinal :: s.log
          pendingFinal := "" } := by
  obtain ⟨h1, h2, h3, h4, h5, h6⟩ := dispatchReady_parts h
  unfold finalTranscriptEffect
  rw [if_pos h]
  unfold handleUserMessage
  rw [if_neg (by simp [h4, h6])]

lemma fe_goodLog (s : St) (h : GoodLog s) : GoodLog (finalTranscriptEffect s) := by
  by_cases hd : dispatchReady s = true
  · obtain ⟨h1, h2, h3, h4, h5, h6⟩ := dispatchReady_parts hd
    rw [fe_of_ready hd]
    obtain ⟨hc, hh⟩ := h
    constructor
    · rw [List.chain'_cons']
      refine ⟨?_, hc⟩
      intro y hy
      rcases hh with hnil | hhead
      · rw [hnil] at hy
        simp at hy
      · rw [hhead] at hy
        simp at hy
        rw [hy] at h5
        exact h5
    · right
      rfl
  · rw [finalTranscriptEffect, if_neg hd]
    exact h

lemma statusEffect_goodLog (s : St) (h : GoodLog s) : GoodLog (statusEffect s) :=
  goodLog_congr (statusEffect_logLast s).1 (statusEffect_logLast s).2 h

lemma react_goodLog (s : St) (h : GoodLog s) : GoodLog (react s) :=
  statusEffect_goodLog _ (fe_goodLog _ (statusEffect_goodLog _ (fe_goodLog _ h)))

lemma step_goodLog (s : St) (e : Event) (h : GoodLog s) : GoodLog (step s e) := by
  cases e with
  | start =>
    simp only [step]
    split
    · exact react_goodLog _ (goodLog_congr
        (by unfold handleStart; exact (speak_logLast _ _ _).1)
        (by unfold handleStart; exact (speak_logLast _ _ _).2) h)
    · exact h
  | interim t =>
    simp only [step]
    split
    · exact react_goodLog _ (goodLog_congr rfl rfl h)
    · exact h
  | final t => exact react_goodLog _ (goodLog_congr rfl rfl h)
  | fireSilence =>
    simp only [step]
    split
    · exact h
    · split <;> exact react_goodLog _ (goodLog_congr rfl rfl h)
  | fireTimer k =>
    simp only [step]
    split
    · exact react_goodLog _ (goodLog_congr (applyTimer_logLast _ _).1
        (applyTimer_logLast _ _).2 (goodLog_congr rfl rfl h))
    · exact h
  | backendOk r =>
    simp only [step]
    split
    · exact h
    · exact react_goodLog _ (goodLog_congr rfl rfl h)
  | backendErr =>
    simp only [step]
    split
    · exact h
    · exact react_goodLog _ (goodLog_congr rfl rfl h)
  | speakEnd =>
    simp only [step]
    split
    · split
      · exact react_goodLog _ (goodLog_congr
          (by unfold startListening; rfl) (by unfold startListening; rfl) h)
      · exact react_goodLog _ (goodLog_congr rfl rfl h)
      · exact react_goodLog _ (goodLog_congr rfl rfl h)
    · exact h
  | interrupt =>
    simp only [step]
    split
    · refine react_goodLog _ (goodLog_congr ?_ ?_ h) <;>
        unfold handleInterrupt stopSpeaking <;> split <;> rfl
    · exact h
  | cancel =>
    simp only [step]
    split
    · exact h
    · exact react_goodLog _ (goodLog_congr rfl rfl h)

lemma foldl_goodLog (l : List Event) (s : St) (h : GoodLog s) :
    GoodLog (l.foldl step s) := by
  induction l generalizing s with
  | nil => exact h
  | cons e l ih => exact ih _ (step_goodLog s e h)

lemma step_cancel_eq {x : St} (hnp : x.needsPermission = false)
    (hout : x.outputActive = false) (hpf : x.pendingFinal = "") :
    step x Event.cancel = handleCancel x := by
  have hfe : finalTranscriptEffect (handleCancel x) = handleCancel x := by
    rw [finalTranscriptEffect, if_neg]
    simp [dispatchReady, handleCancel, hpf]
  have hse : statusEffect (handleCancel x) = handleCancel x := by
    simp [statusEffect, handleCancel]
  simp only [step]
  rw [if_neg (by simp [hnp, hout]), react, hfe, hse, hfe, hse]

lemma step_fire500_eq (x : St) (rest : List TimerKind)
    (ht : x.timers = TimerKind.cancel500 :: rest)
    (hpr : x.processing = false) (hout : x.outputActive = false) :
    step x (Event.fireTimer TimerKind.cancel500) =
      { x with
          status := Status.listening
          inputActive := true
          pendingFinal := ""
          timers := rest } := by
  simp only [step]
  rw [if_pos (by rw [ht]; simp), ht]
  simp only [removeFirst, applyTimer, if_true]
  have hfe :
      finalTranscriptEffect
          (startListening { x with timers := rest, status := Status.listening })
        = startListening { x with timers := rest, status := Status.listening } := by
    rw [finalTranscriptEffect, if_neg]
    simp [dispatchReady, startListening]
  have hse :
      statusEffect (startListening { x with timers := rest, status := Status.listening })
        = startListening { x with timers := rest, status := Status.listening } := by
    simp [statusEffect, startListening, hpr, hout]
  rw [react, hfe, hse, hfe, hse]
  simp [startListening]

/-- Claim C1 (code bug evaluation): at the end of `mutexBugTrace` the
controller is in state Speaking with the output adapter active and the
input adapter ALSO active: the stale second cancel-resume timer restarted
recognition during the in-flight turn and the reply is then spoken with
the microphone open, so the reachable-state invariant of the claim fails
on the code. -/
theorem c1_mutual_exclusion_broken :
    (run true mutexBugTrace).status = Status.speaking ∧
      (run true mutexBugTrace).inputActive = true ∧
      (run true mutexBugTrace).outputActive = true := by decide

/-- Claim C5 (counterexample): in state Listening with the ProcessingFlag
clear, a non-empty final transcript that differs from the last dispatched
one arrives, yet the controller does NOT dispatch it: the final-transcript
effect additionally requires the input adapter to have stopped
(`!isListening`), so while recognition is still active the utterance is
only buffered. -/
theorem c5_no_dispatch_while_adapter_active :
    listeningState.status = Status.listening ∧
      listeningState.processing = false ∧
      listeningState.inputActive = true ∧
      listeningState.lastTranscript ≠ "hello" ∧
      nonBlank "hello" = true ∧
      (step listeningState (Event.final "hello")).log = [] ∧
      (step listeningState (Event.final "hello")).processing = false ∧
      (step listeningState (Event.final "hello")).status = Status.listening := by decide

/-- Claim C6 (counterexample): when the backend call fails, the code clears
the ProcessingFlag IMMEDIATELY in the catch block, while the 2000
time-unit recovery timer is still pending — the claim says the flag is
cleared only after the fixed delay. -/
theorem c6_flag_cleared_before_delay :
    processingState.processing = true ∧
      processingState.inFlight = 1 ∧
      (step processingState Event.backendErr).processing = false ∧
      (step processingState Event.backendErr).status = Status.error ∧
      (step processingState Event.backendErr).timers.contains TimerKind.err2000 = true := by
  decide

/-- Claim C7 (counterexample): a reachable state whose `status` is
Processing (not Speaking) but whose output adapter is active; the
interrupt gesture, guarded in the code by `isSpeaking` rather than by the
state, does have an effect there. -/
theorem c7_interrupt_acts_outside_speaking :
    (run true interruptCexTrace).status = Status.processing ∧
      (run true interruptCexTrace).outputActive = true ∧
      step (run true interruptCexTrace) Event.interrupt ≠ run true interruptCexTrace := by
  decide

/-- Claim C8 (counterexample): with a buffered final transcript, one cancel
and two cancels are observably different. A single cancel clears the
ProcessingFlag and stops listening, upon which the final-transcript effect
fires and DISPATCHES the buffered utterance (flag set, state Processing);
a second cancel then clears the flag again and returns to Idle. -/
theorem c8_cancel_not_idempotent :
    (step pendingFinalState Event.cancel).processing = true ∧
      (step pendingFinalState Event.cancel).status = Status.processing ∧
      (step pendingFinalState Event.cancel).log = ["hi"] ∧
      (step (step pendingFinalState Event.cancel) Event.cancel).processing = false ∧
      (step (step pendingFinalState Event.cancel) Event.cancel).status = Status.idle := by
  decide

/-- Claim C9 (counterexample): with speech synthesis unsupported, the
controller can still start listening — the user cancels out of the stuck
start screen and the cancel resume timer starts recognition — so
"never starts listening in that environment" is too strong. -/
theorem c9_listening_despite_unsupported :
    (run false [Event.start, Event.cancel, Event.fireTimer TimerKind.cancel500]).synthSupported
        = false ∧
      (run false [Event.start, Event.cancel, Event.fireTimer TimerKind.cancel500]).inputActive
        = true ∧
      (run false [Event.start, Event.cancel, Event.fireTimer TimerKind.cancel500]).status
        = Status.listening := by decide

/-- Claim C2: at-most-once dispatch. Over every sequence of events
delivered to the controller, adjacent utterances in the list of backend
dispatches are pairwise distinct — an utterance equal to the last
dispatched one is never sent again until a distinct one has been
dispatched — and, expressing the value-equality deduplication directly, a
final transcript equal to the remembered last-dispatched utterance is
dropped by the final-transcript effect. -/
theorem c2_at_most_once_dispatch :
    (∀ (b : Bool) (tr : List Event), List.Chain' (· ≠ ·) (run b tr).log) ∧
      (∀ s : St, s.pendingFinal = s.lastTranscript → finalTranscriptEffect s = s) := by
  constructor
  · intro b tr
    have h : GoodLog (run b tr) := by
      apply foldl_goodLog
      constructor
      · simp [init]
      · left
        simp [init]
    exact h.1
  · intro s h
    rw [finalTranscriptEffect, if_neg]
    simp [dispatchReady, h]

/-- Claim C2 (witness): the deduplication clause applied to a concrete
state whose buffered final equals the last dispatched utterance. -/
theorem c2_witness :
    finalTranscriptEffect { pendingFinalState with lastTranscript := "hi" } =
      { pendingFinalState with lastTranscript := "hi" } :=
  c2_at_most_once_dispatch.2 _ (by decide)

/-- Claim C3: ProcessingFlag discipline. (1) Whatever event turns the set
flag off is one of the owning turn's resolutions: speech completion,
backend failure, interrupt or cancel — no other event clears it. (2) While
the flag is set, an interim transcript changes nothing at all (so no new
pause signal is scheduled), a newly arrived final transcript is only
buffered — the dispatch list is unchanged and the flag stays set — and a
firing silence timer neither stops listening nor dispatches anything. -/
theorem c3_processing_flag_discipline :
    (∀ (s : St) (e : Event), s.processing = true → (step s e).processing = false →
      e = Event.speakEnd ∨ e = Event.backendErr ∨ e = Event.interrupt ∨ e = Event.cancel) ∧
      (∀ (s : St) (t : String), s.processing = true →
        step s (Event.interim t) = s ∧
          (step s (Event.final t)).log = s.log ∧
          (step s (Event.final t)).processing = true ∧
          (step s Event.fireSilence).log = s.log ∧
          (step s Event.fireSilence).inputActive = s.inputActive ∧
          (step s Event.fireSilence).processing = true) := by
  constructor
  · intro s e hp hc
    cases e with
    | start =>
      exfalso
      simp only [step] at hc
      split at hc
      · rw [react_proc (by rw [handleStart, speak_processing]; exact hp)] at hc
        rw [handleStart, speak_processing] at hc
        simp [hp] at hc
      · simp [hp] at hc
    | interim t =>
      exfalso
      simp only [step, hp] at hc
      simp [hp] at hc
    | final t =>
      exfalso
      rw [step, react_proc (by exact hp)] at hc
      simp [hp] at hc
    | fireSilence =>
      exfalso
      simp only [step] at hc
      split at hc
      · simp [hp] at hc
      · rw [if_neg (by simp [hp]), react_proc (by exact hp)] at hc
        simp [hp] at hc
    | fireTimer k =>
      exfalso
      simp only [step] at hc
      split at hc
      · rw [react_proc (by rw [applyTimer_processing]; exact hp)] at hc
        rw [applyTimer_processing] at hc
        simp [hp] at hc
      · simp [hp] at hc
    | backendOk r =>
      exfalso
      simp only [step] at hc
      split at hc
      · simp [hp] at hc
      · rw [react_proc (by exact hp)] at hc
        simp [hp] at hc
    | backendErr => right; left; rfl
    | speakEnd => left; rfl
    | interrupt => right; right; left; rfl
    | cancel => right; right; right; rfl
  · intro s t hp
    refine ⟨?_, ?_, ?_, ?_, ?_, ?_⟩
    · simp [step, hp]
    · rw [step, react_proc (by exact hp)]
    · rw [step, react_proc (by exact hp)]
      exact hp
    · simp only [step]
      split
      · rfl
      · rw [if_neg (by simp [hp]), react_proc (by exact hp)]
    · simp only [step]
      split
      · rfl
      · rw [if_neg (by simp [hp]), react_proc (by exact hp)]
    · simp only [step]
      split
      · exact hp
      · rw [if_neg (by simp [hp]), react_proc (by exact hp)]
        exact hp

/-- Claim C3 (witness): in the concrete in-flight state, the flag is set,
a cancel clears it (cancel is one of the allowed resolutions), and while
the flag is set an interim update and a final transcript are ignored. -/
theorem c3_witness :
    processingState.processing = true ∧
      (Event.cancel = Event.speakEnd ∨ Event.cancel = Event.backendErr ∨
        Event.cancel = Event.interrupt ∨ Event.cancel = Event.cancel) ∧
      step processingState (Event.interim "more words") = processingState ∧
      (step processingState (Event.final "again")).log = processingState.log :=
  ⟨by decide,
    c3_processing_flag_discipline.1 processingState Event.cancel (by decide) (by decide),
    (c3_processing_flag_discipline.2 processingState "more words" (by decide)).1,
    (c3_processing_flag_discipline.2 processingState "again" (by decide)).2.1⟩

/-- Claim C4: adaptive silence-delay policy. For every interim update
received while listening and not processing, the single silence-timer slot
is (re)armed — replacing any previously scheduled pause signal — with
exactly `silenceDelay` time-units: 1200 when the space-separated word
count of the text exceeds 5, and 1500 otherwise. -/
theorem c4_silence_delay_policy (s : St) (t : String)
    (h1 : s.inputActive = true) (h2 : s.processing = false) (h3 : t ≠ "") :
    (step s (Event.interim t)).silenceTimer = some (silenceDelay t) ∧
      (5 < wordCount t → silenceDelay t = 1200) ∧
      (wordCount t ≤ 5 → silenceDelay t = 1500) := by
  refine ⟨?_, ?_, ?_⟩
  · simp only [step]
    rw [if_pos (by simp [h1, h2, h3])]
    rw [react_silenceTimer]
  · intro h
    simp [silenceDelay, h]
  · intro h
    simp [silenceDelay, Nat.not_lt.mpr h]

/-- Claim C4 (witness): in the concrete listening state, a 6-word interim
text arms the pause timer at 1200 units and a 3-word text at 1500 units. -/
theorem c4_witness :
    (step listeningState (Event.interim "a b c d e f")).silenceTimer
        = some (silenceDelay "a b c d e f") ∧
      silenceDelay "a b c d e f" = 1200 ∧
      wordCount "a b c d e f" = 6 ∧
      (step listeningState (Event.interim "a b c")).silenceTimer
        = some (silenceDelay "a b c") ∧
      silenceDelay "a b c" = 1500 ∧
      wordCount "a b c" = 3 :=
  ⟨(c4_silence_delay_policy listeningState "a b c d e f" (by decide) (by decide)
      (by decide)).1,
    by decide, by decide,
    (c4_silence_delay_policy listeningState "a b c" (by decide) (by decide) (by decide)).1,
    by decide, by decide⟩

/-- Claim C5 (amended): a final transcript that arrives once the input
adapter has stopped (the effect defers finals that arrive while
recognition is still active until listening stops), differs from the last
dispatched final, is non-blank, and finds the ProcessingFlag clear, makes
the controller set the flag, dispatch the turn to the backend and enter
Processing. -/
theorem c5_final_transcript_transition (s : St) (t : String)
    (h1 : s.status = Status.listening) (h2 : s.hasStarted = true)
    (h3 : s.inputActive = false) (h4 : s.processing = false)
    (h5 : t ≠ s.lastTranscript) (h6 : nonBlank t = true) :
    (step s (Event.final t)).processing = true ∧
      (step s (Event.final t)).status = Status.processing ∧
      (step s (Event.final t)).log = t :: s.log ∧
      (step s (Event.final t)).lastTranscript = t := by
  have hne : t ≠ "" := nonBlank_ne_empty h6
  rcases s with ⟨np, hs, st, pr, ia, oa, pe, ct, lr, lt, pf, sil, tm, fl, lg, sy⟩
  dsimp only at h1 h2 h3 h4 h5
  subst h1 h2 h3 h4
  simp [step, react, finalTranscriptEffect, dispatchReady, statusEffect,
    handleUserMessage, h5, h6, hne, bne_iff_ne]

/-- Claim C5 (witness): in a concrete reachable post-pause state
(Listening, adapter stopped, flag clear) a fresh final transcript is
dispatched and the controller enters Processing. -/
theorem c5_witness :
    (step (run true [Event.start, Event.speakEnd, Event.interim "a b", Event.fireSilence])
          (Event.final "hello")).processing = true ∧
      (step (run true [Event.start, Event.speakEnd, Event.interim "a b", Event.fireSilence])
          (Event.final "hello")).status = Status.processing ∧
      (step (run true [Event.start, Event.speakEnd, Event.interim "a b", Event.fireSilence])
          (Event.final "hello")).log =
        "hello" ::
          (run true [Event.start, Event.speakEnd, Event.interim "a b",
              Event.fireSilence]).log ∧
      (step (run true [Event.start, Event.speakEnd, Event.interim "a b", Event.fireSilence])
          (Event.final "hello")).lastTranscript = "hello" :=
  c5_final_transcript_transition _ "hello" (by decide) (by decide) (by decide) (by decide)
    (by decide) (by decide)

/-- Claim C6 (amended): when the backend call for a dispatched turn fails,
the controller clears the ProcessingFlag immediately in the failure
handler, enters the Error state showing the fallback text, and schedules
the 2000 time-unit recovery; when that timer fires the controller returns
to Listening and restarts the input adapter; no backend call is issued on
the failure path and the failed utterance stays recorded as the last
dispatched one, so it is never retried. -/
theorem c6_backend_failure_recovery (s : St)
    (h1 : 0 < s.inFlight) (h2 : s.pendingFinal = "")
    (h3 : s.inputActive = false) (h4 : s.outputActive = false) :
    (step s Event.backendErr).processing = false ∧
      (step s Event.backendErr).status = Status.error ∧
      (step s Event.backendErr).currentTranscript = "Sorry, something went wrong" ∧
      (step s Event.backendErr).log = s.log ∧
      (step s Event.backendErr).lastTranscript = s.lastTranscript ∧
      (step s Event.backendErr).timers = TimerKind.err2000 :: s.timers ∧
      (step (step s Event.backendErr) (Event.fireTimer TimerKind.err2000)).status
          = Status.listening ∧
      (step (step s Event.backendErr) (Event.fireTimer TimerKind.err2000)).inputActive
          = true ∧
      (step (step s Event.backendErr) (Event.fireTimer TimerKind.err2000)).log = s.log := by
  rcases s with ⟨np, hs, st, pr, ia, oa, pe, ct, lr, lt, pf, sil, tm, fl, lg, sy⟩
  dsimp only at h1 h2 h3 h4
  subst h2 h3 h4
  have hne0 : fl ≠ 0 := by omega
  simp [step, react, finalTranscriptEffect, dispatchReady, statusEffect, applyTimer,
    startListening, removeFirst, hne0, List.contains_cons]

/-- Claim C6 (witness): the amended recovery behaviour evaluated in the
concrete in-flight state. -/
theorem c6_witness :
    (step processingState Event.backendErr).processing = false ∧
      (step processingState Event.backendErr).status = Status.error ∧
      (step processingState Event.backendErr).currentTranscript
        = "Sorry, something went wrong" ∧
      (step processingState Event.backendErr).log = processingState.log ∧
      (step processingState Event.backendErr).lastTranscript
        = processingState.lastTranscript ∧
      (step processingState Event.backendErr).timers
        = TimerKind.err2000 :: processingState.timers ∧
      (step (step processingState Event.backendErr)
          (Event.fireTimer TimerKind.err2000)).status = Status.listening ∧
      (step (step processingState Event.backendErr)
          (Event.fireTimer TimerKind.err2000)).inputActive = true ∧
      (step (step processingState Event.backendErr)
          (Event.fireTimer TimerKind.err2000)).log = processingState.log :=
  c6_backend_failure_recovery processingState (by decide) (by decide) (by decide) (by decide)

/-- Claim C7 (amended): the interrupt gesture has an effect exactly when
the OUTPUT ADAPTER is active (the code guards on `isSpeaking`, which in
race states can differ from the Speaking display state): with output
active and no buffered final transcript it stops the output immediately,
clears the ProcessingFlag, clears transcript and response, shows Listening
and schedules the 300 time-unit resume of the input adapter; with the
output adapter inactive it changes nothing at all. -/
theorem c7_interrupt_protocol (s : St) :
    (s.outputActive = true → s.pendingFinal = "" →
      (step s Event.interrupt).outputActive = false ∧
        (step s Event.interrupt).processing = false ∧
        (step s Event.interrupt).status = Status.listening ∧
        (step s Event.interrupt).currentTranscript = "" ∧
        (step s Event.interrupt).lastResponse = "" ∧
        (step s Event.interrupt).timers = TimerKind.int300 :: s.timers ∧
        (step s Event.interrupt).log = s.log) ∧
      (s.outputActive = false → step s Event.interrupt = s) := by
  constructor
  · intro h1 h2
    rcases s with ⟨np, hs, st, pr, ia, oa, pe, ct, lr, lt, pf, sil, tm, fl, lg, sy⟩
    dsimp only at h1 h2
    subst h1 h2
    cases ia <;>
      simp [step, react, handleInterrupt, stopSpeaking, finalTranscriptEffect,
        dispatchReady, statusEffect]
  · intro h
    simp [step, h]

/-- Claim C7 (witness): the effect branch applied while the greeting is
being voiced, and the no-change branch applied in the initial state. -/
theorem c7_witness :
    ((step (run true [Event.start]) Event.interrupt).outputActive = false ∧
        (step (run true [Event.start]) Event.interrupt).processing = false ∧
        (step (run true [Event.start]) Event.interrupt).status = Status.listening ∧
        (step (run true [Event.start]) Event.interrupt).currentTranscript = "" ∧
        (step (run true [Event.start]) Event.interrupt).lastResponse = "" ∧
        (step (run true [Event.start]) Event.interrupt).timers
          = TimerKind.int300 :: (run true [Event.start]).timers ∧
        (step (run true [Event.start]) Event.interrupt).log
          = (run true [Event.start]).log) ∧
      step (init true) Event.interrupt = init true :=
  ⟨(c7_interrupt_protocol (run true [Event.start])).1 (by decide) (by decide),
    (c7_interrupt_protocol (init true)).2 (by decide)⟩

/-- Claim C8 (amended): provided no undispatched final transcript is
buffered when cancel is invoked (and cancel is available: session started,
output not active), invoking cancel twice in succession has the same
externally observable effect as invoking it once: no backend call is
issued by either, and after the queued 500 time-unit resume timers fire
the two executions are in identical states (adapters stopped then
listening restarted, flag clear, text cleared). -/
theorem c8_idempotent_cancel (s : St)
    (h1 : s.needsPermission = false) (h2 : s.outputActive = false)
    (h3 : s.pendingFinal = "") :
    (step s Event.cancel).log = s.log ∧
      (step (step s Event.cancel) Event.cancel).log = s.log ∧
      step (step (step (step s Event.cancel) Event.cancel)
          (Event.fireTimer TimerKind.cancel500)) (Event.fireTimer TimerKind.cancel500)
        = step (step s Event.cancel) (Event.fireTimer TimerKind.cancel500) := by
  have ho : step s Event.cancel = handleCancel s := step_cancel_eq h1 h2 h3
  have ho2 : step (step s Event.cancel) Event.cancel = handleCancel (handleCancel s) := by
    rw [ho]
    exact step_cancel_eq (by simp [handleCancel, h1]) (by simp [handleCancel])
      (by simp [handleCancel, h3])
  refine ⟨by rw [ho]; simp [handleCancel], by rw [ho2]; simp [handleCancel], ?_⟩
  rw [ho2, ho]
  have hf1 := step_fire500_eq (handleCancel (handleCancel s))
    (TimerKind.cancel500 :: s.timers) (by simp [handleCancel])
    (by simp [handleCancel]) (by simp [handleCancel])
  rw [hf1]
  have hf2 := step_fire500_eq
    { handleCancel (handleCancel s) with
        status := Status.listening
        inputActive := true
        pendingFinal := ""
        timers := TimerKind.cancel500 :: s.timers }
    s.timers (by simp) (by simp [handleCancel]) (by simp [handleCancel])
  rw [hf2]
  have hf3 := step_fire500_eq (handleCancel s) s.timers
    (by simp [handleCancel]) (by simp [handleCancel]) (by simp [handleCancel])
  rw [hf3]
  simp [handleCancel]

/-- Claim C8 (witness): the amended idempotence evaluated in the concrete
listening state. -/
theorem c8_witness :
    (step listeningState Event.cancel).log = listeningState.log ∧
      (step (step listeningState Event.cancel) Event.cancel).log = listeningState.log ∧
      step (step (step (step listeningState Event.cancel) Event.cancel)
          (Event.fireTimer TimerKind.cancel500)) (Event.fireTimer TimerKind.cancel500)
        = step (step listeningState Event.cancel) (Event.fireTimer TimerKind.cancel500) :=
  c8_idempotent_cancel listeningState (by decide) (by decide) (by decide)

/-- Claim C9 (amended): when speech synthesis is unsupported, every call
to `speak` returns without speaking and without registering the completion
callback (the state is unchanged), so the session-start greeting never
completes — no speech-completion event can fire — and the start path
leaves the controller displaying Listening with the input adapter never
started; listening can still begin later through the cancel path's resume
timer. -/
theorem c9_unsupported_synthesis :
    (∀ (s : St) (t : String) (k : OnEnd), s.synthSupported = false → speak s t k = s) ∧
      (step (init false) Event.start).outputActive = false ∧
      (step (init false) Event.start).pendingOnEnd = none ∧
      (step (init false) Event.start).inputActive = false ∧
      (step (init false) Event.start).status = Status.listening ∧
      step (step (init false) Event.start) Event.speakEnd
        = step (init false) Event.start := by
  constructor
  · intro s t k h
    simp [speak, h]
  · decide

/-- Claim C9 (witness): `speak` is a no-op on a concrete unsupported-
synthesis state. -/
theorem c9_witness :
    speak (init false) "Hello! How can I help you?" OnEnd.greet = init false :=
  c9_unsupported_synthesis.1 (init false) "Hello! How can I help you?" OnEnd.greet
    (by decide)

/-- Claim C10: after a backend failure the last-dispatched record still
holds the failed utterance (the catch block does not clear it), so a
redelivered final transcript with the identical text is discarded by the
duplicate guard — nothing is dispatched and the flag stays clear — while a
textually distinct non-blank final does start the next turn. -/
theorem c10_error_keeps_duplicate_guard (s : St)
    (h1 : 0 < s.inFlight) (h2 : s.pendingFinal = "") (h3 : s.inputActive = false)
    (h4 : s.outputActive = false) (h5 : s.hasStarted = true) :
    (step s Event.backendErr).lastTranscript = s.lastTranscript ∧
      (step (step s Event.backendErr) (Event.final s.lastTranscript)).log = s.log ∧
      (step (step s Event.backendErr) (Event.final s.lastTranscript)).processing = false ∧
      (∀ v, nonBlank v = true → v ≠ s.lastTranscript →
        (step (step s Event.backendErr) (Event.final v)).log = v :: s.log ∧
          (step (step s Event.backendErr) (Event.final v)).processing = true ∧
          (step (step s Event.backendErr) (Event.final v)).status = Status.processing) := by
  rcases s with ⟨np, hs, st, pr, ia, oa, pe, ct, lr, lt, pf, sil, tm, fl, lg, sy⟩
  dsimp only at h1 h2 h3 h4 h5
  subst h2 h3 h4 h5
  have hne0 : fl ≠ 0 := by omega
  refine ⟨?_, ?_, ?_, ?_⟩
  · simp [step, react, finalTranscriptEffect, dispatchReady, statusEffect, hne0]
  · simp [step, react, finalTranscriptEffect, dispatchReady, statusEffect, hne0]
  · simp [step, react, finalTranscriptEffect, dispatchReady, statusEffect, hne0]
  · intro v hv hvne
    have hvne' : v ≠ "" := nonBlank_ne_empty hv
    refine ⟨?_, ?_, ?_⟩ <;>
      simp [step, react, finalTranscriptEffect, dispatchReady, statusEffect,
        handleUserMessage, hne0, hv, hvne, hvne', bne_iff_ne]

/-- Claim C10 (witness): in the concrete in-flight state whose dispatched
utterance is "hi", after the failure a redelivered "hi" is discarded and
the distinct "bye" starts a new turn. -/
theorem c10_witness :
    (step processingState Event.backendErr).lastTranscript
        = processingState.lastTranscript ∧
      (step (step processingState Event.backendErr)
          (Event.final processingState.lastTranscript)).log = processingState.log ∧
      (step (step processingState Event.backendErr)
          (Event.final "bye")).log = "bye" :: processingState.log ∧
      (step (step processingState Event.backendErr)
          (Event.final "bye")).processing = true :=
  ⟨(c10_error_keeps_duplicate_guard processingState (by decide) (by decide) (by decide)
      (by decide) (by decide)).1,
    (c10_error_keeps_duplicate_guard processingState (by decide) (by decide) (by decide)
      (by decide) (by decide)).2.1,
    ((c10_error_keeps_duplicate_guard processingState (by decide) (by decide) (by decide)
      (by decide) (by decide)).2.2.2 "bye" (by decide) (by decide)).1,
    ((c10_error_keeps_duplicate_guard processingState (by decide) (by decide) (by decide)
      (by decide) (by decide)).2.2.2 "bye" (by decide) (by decide)).2.1⟩

end VoiceAssistant
